import Mathlib

/-!
Verification development for the emesh-sp service-prioritization rule
database (`sp_mapdb.c`).  The rule table, the generic (MESH) matcher, the
SAWF-family matcher, the precedence-descending searches and the
add/delete/flush updater are embedded as executable Lean definitions and
the spec-level claims about them are proved below.

The C file includes two headers (`sp_mapdb.h`, `sp_types.h`) that are not
part of the sources at hand; the numeric constants they define (flag bits,
sentinel values, table limits) are modelled from the spec, as marked on
each such definition.  All control flow is transcribed from `sp_mapdb.c`
itself.
-/

set_option autoImplicit false

/-! ## Constants -/

/-- Ethernet protocol id for IPv4 (standard Linux constant `ETH_P_IP`). -/
def ETH_P_IP : Nat := 0x0800

/-- Ethernet protocol id for IPv6 (standard Linux constant `ETH_P_IPV6`). -/
def ETH_P_IPV6 : Nat := 0x86DD

/-- Ethernet protocol id for a 802.1Q VLAN tag (`ETH_P_8021Q`). -/
def ETH_P_8021Q : Nat := 0x8100

/-- IP protocol number of TCP. -/
def IPPROTO_TCP : Nat := 6

/-- IP protocol number of UDP. -/
def IPPROTO_UDP : Nat := 17

/-- Mask of the PCP bits inside a VLAN TCI (Linux `VLAN_PRIO_MASK`). -/
def VLAN_PRIO_MASK : Nat := 0xE000

/-- Shift of the PCP bits inside a VLAN TCI (Linux `VLAN_PRIO_SHIFT`). -/
def VLAN_PRIO_SHIFT : Nat := 13

/-- Mask of the VLAN id bits inside a VLAN TCI (Linux `VLAN_VID_MASK`). -/
def VLAN_VID_MASK : Nat := 0x0FFF

/-- Modelled from the spec: `sp_mapdb.h` is absent; the table holds at most
`RULE_MAX` live rules in total. -/
def SP_MAPDB_RULE_MAX : Nat := 1024

/-- Modelled from the spec: number of precedence buckets; a precedence is in
the range `[0, MAX_PRECEDENCE)` and the value `MAX_PRECEDENCE` itself is the
remap-to-zero sentinel.  The search comment in `sp_mapdb.c` enumerates from
`prec_map[0xFE]` down to `prec_map[0]`, fixing the value 255. -/
def SP_MAPDB_RULE_MAX_PRECEDENCENUM : Nat := 255

/-- Modelled from the spec: sentinel rule output meaning use the frame's
link-layer priority verbatim. -/
def SP_MAPDB_USE_UP : Nat := 8

/-- Modelled from the spec: sentinel rule output meaning derive the priority
from the DSCP field. -/
def SP_MAPDB_USE_DSCP : Nat := 9

/-- Modelled from the spec: the no-match sentinel; the add path rejects a rule
whose output is greater or equal to it (the C warning text gives the valid
range 0-9). -/
def SP_MAPDB_NO_MATCH : Nat := 10

/-- Modelled from the spec: the configured default priority used when no rule
matches a non-IP frame. -/
def SP_MAPDB_RULE_DEFAULT_PCP : Nat := 0

/-- Command value carried on an update request asking for an add; the comment
on `sp_mapdb_rule_update` gives add = 0, remove = 1. -/
def SP_MAPDB_ADD_REMOVE_FILTER_ADD : Nat := 0

/-- Command value carried on an update request asking for a delete. -/
def SP_MAPDB_ADD_REMOVE_FILTER_DELETE : Nat := 1

/-- Modelled from the spec: classifier type of MESH rules. -/
def SP_RULE_TYPE_MESH : Nat := 0

/-- Modelled from the spec: classifier type of SAWF rules. -/
def SP_RULE_TYPE_SAWF : Nat := 1

/-- Modelled from the spec: classifier type of SAWF_SCS rules. -/
def SP_RULE_TYPE_SAWF_SCS : Nat := 2

/-- Modelled from the spec: classifier type of SCS rules. -/
def SP_RULE_TYPE_SCS : Nat := 3

/-- Modelled from the spec: classifier type of MSCS rules. -/
def SP_RULE_TYPE_MSCS : Nat := 4

/-- Modelled from the spec: invalid-priority sentinel output. -/
def SP_RULE_INVALID_PRIORITY : Nat := 0xFF

/-- Modelled from the spec: invalid-rule-id sentinel output. -/
def SP_RULE_INVALID_RULE_ID : Nat := 0xFFFFFFFF

/-- Modelled from the spec: invalid DSCP-remark sentinel output. -/
def SP_RULE_INVALID_DSCP_REMARK : Nat := 0xFF

/-- Modelled from the spec: invalid VLAN-PCP-remark sentinel output. -/
def SP_RULE_INVALID_VLAN_PCP_REMARK : Nat := 0xFF

/-- Modelled from the spec: invalid service-class-id sentinel output. -/
def SP_RULE_INVALID_SERVICE_CLASS_ID : Nat := 0xFF

/-- Modelled from the spec: invalid MSCS TID bitmap sentinel. -/
def SP_RULE_INVALID_MSCS_TID_BITMAP : Nat := 0xFF

/-- Modelled from the spec: sentinel TCI value meaning the caller reports no
VLAN tag present. -/
def SP_RULE_INVALID_VLAN_TCI : Nat := 0xFFFFFFFF

/-!
Match-flag bits of the generic (MESH) matcher.  Modelled from the spec:
`sp_types.h` is absent; each active predicate field has its own flag bit and,
for MESH rules, a paired sense bit.  The claims depend only on the bits being
pairwise distinct powers of two.
-/

/-- Flag: the rule matches unconditionally. -/
def SP_RULE_FLAG_MATCH_ALWAYS_TRUE : Nat := 0x1

/-- Flag: match the frame's user priority. -/
def SP_RULE_FLAG_MATCH_UP : Nat := 0x2

/-- Sense bit paired with the user-priority flag. -/
def SP_RULE_FLAG_MATCH_UP_SENSE : Nat := 0x4

/-- Flag: match the source MAC address. -/
def SP_RULE_FLAG_MATCH_SOURCE_MAC : Nat := 0x8

/-- Sense bit paired with the source-MAC flag. -/
def SP_RULE_FLAG_MATCH_SOURCE_MAC_SENSE : Nat := 0x10

/-- Flag: match the destination MAC address. -/
def SP_RULE_FLAG_MATCH_DST_MAC : Nat := 0x20

/-- Sense bit paired with the destination-MAC flag. -/
def SP_RULE_FLAG_MATCH_DST_MAC_SENSE : Nat := 0x40

/-- Flag: match the VLAN id. -/
def SP_RULE_FLAG_MATCH_VLAN_ID : Nat := 0x80

/-- Sense bit paired with the VLAN-id flag. -/
def SP_RULE_FLAG_MATCH_VLAN_ID_SENSE : Nat := 0x100

/-- Flag: match the IPv4 source address. -/
def SP_RULE_FLAG_MATCH_SRC_IPV4 : Nat := 0x200

/-- Sense bit paired with the IPv4-source flag. -/
def SP_RULE_FLAG_MATCH_SRC_IPV4_SENSE : Nat := 0x400

/-- Flag: match the IPv4 destination address. -/
def SP_RULE_FLAG_MATCH_DST_IPV4 : Nat := 0x800

/-- Sense bit paired with the IPv4-destination flag. -/
def SP_RULE_FLAG_MATCH_DST_IPV4_SENSE : Nat := 0x1000

/-- Flag: match the transport source port. -/
def SP_RULE_FLAG_MATCH_SRC_PORT : Nat := 0x2000

/-- Sense bit paired with the source-port flag. -/
def SP_RULE_FLAG_MATCH_SRC_PORT_SENSE : Nat := 0x4000

/-- Flag: match the transport destination port. -/
def SP_RULE_FLAG_MATCH_DST_PORT : Nat := 0x8000

/-- Sense bit paired with the destination-port flag. -/
def SP_RULE_FLAG_MATCH_DST_PORT_SENSE : Nat := 0x10000

/-- Flag: match the DSCP field. -/
def SP_RULE_FLAG_MATCH_DSCP : Nat := 0x20000

/-- Sense bit paired with the DSCP flag. -/
def SP_RULE_FLAG_MATCH_DSCP_SENSE : Nat := 0x40000

/-- Flag: match the IP protocol number. -/
def SP_RULE_FLAG_MATCH_PROTOCOL : Nat := 0x80000

/-- Sense bit paired with the IP-protocol flag. -/
def SP_RULE_FLAG_MATCH_PROTOCOL_SENSE : Nat := 0x100000

/-- The group of flags that require the frame to parse as IPv4, taken from
the combined test in `sp_mapdb_rule_match`. -/
def sp_ipv4_group_flags : Nat :=
  SP_RULE_FLAG_MATCH_SRC_IPV4 ||| SP_RULE_FLAG_MATCH_DST_IPV4 |||
  SP_RULE_FLAG_MATCH_SRC_PORT ||| SP_RULE_FLAG_MATCH_DST_PORT |||
  SP_RULE_FLAG_MATCH_DSCP ||| SP_RULE_FLAG_MATCH_PROTOCOL

/-!
Match-flag bits of the SAWF-family matcher (field `flags_sawf`).  Modelled
from the spec: `sp_types.h` is absent; distinct bits per field, with
companion mask bits for the maskable fields.
-/

/-- SAWF flag: match the ip-version type. -/
def SP_RULE_FLAG_MATCH_SAWF_IP_VERSION_TYPE : Nat := 0x1

/-- SAWF flag: match the destination MAC address. -/
def SP_RULE_FLAG_MATCH_SAWF_DST_MAC : Nat := 0x2

/-- SAWF flag: match the destination port. -/
def SP_RULE_FLAG_MATCH_SAWF_DST_PORT : Nat := 0x4

/-- SAWF flag: destination-port range start is active. -/
def SP_RULE_FLAG_MATCH_SAWF_DST_PORT_RANGE_START : Nat := 0x8

/-- SAWF flag: destination-port range end is active. -/
def SP_RULE_FLAG_MATCH_SAWF_DST_PORT_RANGE_END : Nat := 0x10

/-- SAWF flag: match the IPv4 destination address. -/
def SP_RULE_FLAG_MATCH_SAWF_DST_IPV4 : Nat := 0x20

/-- SAWF flag: apply the IPv4 destination mask to the input first. -/
def SP_RULE_FLAG_MATCH_SAWF_DST_IPV4_MASK : Nat := 0x40

/-- SAWF flag: match the source MAC address. -/
def SP_RULE_FLAG_MATCH_SAWF_SOURCE_MAC : Nat := 0x80

/-- SAWF flag: match the IPv6 source address. -/
def SP_RULE_FLAG_MATCH_SAWF_SRC_IPV6 : Nat := 0x100

/-- SAWF flag: apply the IPv6 source mask to the input first. -/
def SP_RULE_FLAG_MATCH_SAWF_SRC_IPV6_MASK : Nat := 0x200

/-- SAWF flag: match the IPv6 destination address. -/
def SP_RULE_FLAG_MATCH_SAWF_DST_IPV6 : Nat := 0x400

/-- SAWF flag: apply the IPv6 destination mask to the input first. -/
def SP_RULE_FLAG_MATCH_SAWF_DST_IPV6_MASK : Nat := 0x800

/-- SAWF flag: match the source port. -/
def SP_RULE_FLAG_MATCH_SAWF_SRC_PORT : Nat := 0x1000

/-- SAWF flag: source-port range start is active. -/
def SP_RULE_FLAG_MATCH_SAWF_SRC_PORT_RANGE_START : Nat := 0x2000

/-- SAWF flag: source-port range end is active. -/
def SP_RULE_FLAG_MATCH_SAWF_SRC_PORT_RANGE_END : Nat := 0x4000

/-- SAWF flag: match the IPv4 source address. -/
def SP_RULE_FLAG_MATCH_SAWF_SRC_IPV4 : Nat := 0x8000

/-- SAWF flag: apply the IPv4 source mask to the input first. -/
def SP_RULE_FLAG_MATCH_SAWF_SRC_IPV4_MASK : Nat := 0x10000

/-- SAWF flag: match the IP protocol number. -/
def SP_RULE_FLAG_MATCH_SAWF_PROTOCOL : Nat := 0x20000

/-- SAWF flag: match the DSCP field. -/
def SP_RULE_FLAG_MATCH_SAWF_DSCP : Nat := 0x40000

/-- SAWF flag: match the VLAN PCP bits. -/
def SP_RULE_FLAG_MATCH_SAWF_VLAN_PCP : Nat := 0x80000

/-- SAWF flag: match the VLAN id. -/
def SP_RULE_FLAG_MATCH_SAWF_VLAN_ID : Nat := 0x100000

/-- SAWF flag: match the SPI pattern under the rule's pattern mask. -/
def SP_RULE_FLAG_MATCH_SCS_SPI : Nat := 0x200000

/-! ## Data model -/

/-- Inner payload of a rule (`struct sp_rule_inner`): match flags, match-field
values and output fields.  MAC addresses and IP addresses are modelled as
natural-number values; masking (`&&&`) and equality on them coincide with the
byte-wise operations of the C code. -/
structure sp_rule_inner where
  flags : Nat := 0
  flags_sawf : Nat := 0
  rule_output : Nat := 0
  user_priority : Nat := 0
  sa : Nat := 0
  da : Nat := 0
  vlan_id : Nat := 0
  dscp : Nat := 0
  dscp_remark : Nat := 0
  vlan_pcp : Nat := 0
  vlan_pcp_remark : Nat := 0
  service_class_id : Nat := 0
  src_ipv4_addr : Nat := 0
  dst_ipv4_addr : Nat := 0
  src_ipv4_addr_mask : Nat := 0
  dst_ipv4_addr_mask : Nat := 0
  src_ipv6_addr : Nat := 0
  dst_ipv6_addr : Nat := 0
  src_ipv6_addr_mask : Nat := 0
  dst_ipv6_addr_mask : Nat := 0
  protocol_number : Nat := 0
  src_port : Nat := 0
  dst_port : Nat := 0
  src_port_range_start : Nat := 0
  src_port_range_end : Nat := 0
  dst_port_range_start : Nat := 0
  dst_port_range_end : Nat := 0
  ip_version_type : Nat := 0
  match_pattern_value : Nat := 0
  match_pattern_mask : Nat := 0
  mscs_tid_bitmap : Nat := 0
  priority_limit : Nat := 0
  ifindex : Nat := 0
  service_interval_dl : Nat := 0
  burst_size_dl : Nat := 0
  service_interval_ul : Nat := 0
  burst_size_ul : Nat := 0
  deriving DecidableEq, Repr

/-- A rule (`struct sp_rule`): the unique key is the pair
(`id`, `classifier_type`). -/
structure sp_rule where
  id : Nat := 0
  cmd : Nat := 0
  rule_precedence : Nat := 0
  classifier_type : Nat := 0
  inner : sp_rule_inner := {}
  deriving DecidableEq, Repr

/-- Parsed packet view consumed by the generic matcher (the relevant fields
of `struct sk_buff` plus the already-parsed headers).  `protocol` is the
host-order ethertype seen by `skb->protocol`, `eth_hproto` the outer
ethertype of the frame header used by the VLAN check, `dsfield` the IPv4/IPv6
DS byte, `vlan_tci` the TCI of an attached 802.1Q tag.  Truncated frames (the
`pskb_may_pull` failures) are not modelled: packets carry their parsed
headers. -/
structure sk_buff where
  priority : Nat := 0
  protocol : Nat := 0
  eth_hproto : Nat := 0
  vlan_tci : Nat := 0
  dsfield : Nat := 0
  saddr : Nat := 0
  daddr : Nat := 0
  ip_protocol : Nat := 0
  src_port : Nat := 0
  dst_port : Nat := 0
  deriving DecidableEq, Repr

/-- Caller-supplied packet fields of the SAWF-family matcher
(`struct sp_rule_input_params`). -/
structure sp_rule_input_params where
  ip_version_type : Nat := 0
  src_mac : Nat := 0
  dst_mac : Nat := 0
  dev_addr : Nat := 0
  ifindex : Nat := 0
  src_port : Nat := 0
  dst_port : Nat := 0
  src_ipv4_addr : Nat := 0
  dst_ipv4_addr : Nat := 0
  src_ipv6_addr : Nat := 0
  dst_ipv6_addr : Nat := 0
  protocol : Nat := 0
  dscp : Nat := 0
  vlan_tci : Nat := 0
  spi : Nat := 0
  deriving DecidableEq, Repr

/-- Output decision of the SAWF/SCS/MSCS classifiers
(`struct sp_rule_output_params`). -/
structure sp_rule_output_params where
  priority : Nat := 0
  rule_id : Nat := 0
  dscp_remark : Nat := 0
  vlan_pcp_remark : Nat := 0
  service_class_id : Nat := 0
  deriving DecidableEq, Repr

/-! ## Generic (MESH) matcher -/

/-- Generic matcher `sp_mapdb_rule_match`, transcribed check for check.  Every
active flag computes a compare result and a sense bit and fails the whole
match unless compare XOR sense holds; the always-true flag short-circuits to
a match; VLAN matching requires an 802.1Q tag; the IPv4 field group requires
an IPv4 frame; port values read 0 when the IP protocol is neither TCP nor
UDP (the C locals start at 0 and are only filled from a TCP or UDP header). -/
def sp_mapdb_rule_match (skb : sk_buff) (rule : sp_rule) (smac dmac : Nat) : Bool :=
  let flags := rule.inner.flags
  if (flags &&& SP_RULE_FLAG_MATCH_ALWAYS_TRUE) != 0 then
    true
  else if (flags &&& SP_RULE_FLAG_MATCH_UP) != 0 &&
      !((skb.priority == rule.inner.user_priority) ^^
        ((flags &&& SP_RULE_FLAG_MATCH_UP_SENSE) != 0)) then
    false
  else if (flags &&& SP_RULE_FLAG_MATCH_SOURCE_MAC) != 0 &&
      !((smac == rule.inner.sa) ^^
        ((flags &&& SP_RULE_FLAG_MATCH_SOURCE_MAC_SENSE) != 0)) then
    false
  else if (flags &&& SP_RULE_FLAG_MATCH_DST_MAC) != 0 &&
      !((dmac == rule.inner.da) ^^
        ((flags &&& SP_RULE_FLAG_MATCH_DST_MAC_SENSE) != 0)) then
    false
  else if (flags &&& SP_RULE_FLAG_MATCH_VLAN_ID) != 0 &&
      skb.eth_hproto != ETH_P_8021Q then
    false
  else if (flags &&& SP_RULE_FLAG_MATCH_VLAN_ID) != 0 &&
      !((skb.vlan_tci == rule.inner.vlan_id) ^^
        ((flags &&& SP_RULE_FLAG_MATCH_VLAN_ID_SENSE) != 0)) then
    false
  else if (flags &&& sp_ipv4_group_flags) == 0 then
    true
  else if skb.protocol != ETH_P_IP then
    false
  else if (flags &&& SP_RULE_FLAG_MATCH_DSCP) != 0 &&
      !(((skb.dsfield >>> 2) == rule.inner.dscp) ^^
        ((flags &&& SP_RULE_FLAG_MATCH_DSCP_SENSE) != 0)) then
    false
  else if (flags &&& SP_RULE_FLAG_MATCH_SRC_IPV4) != 0 &&
      !((skb.saddr == rule.inner.src_ipv4_addr) ^^
        ((flags &&& SP_RULE_FLAG_MATCH_SRC_IPV4_SENSE) != 0)) then
    false
  else if (flags &&& SP_RULE_FLAG_MATCH_DST_IPV4) != 0 &&
      !((skb.daddr == rule.inner.dst_ipv4_addr) ^^
        ((flags &&& SP_RULE_FLAG_MATCH_DST_IPV4_SENSE) != 0)) then
    false
  else if (flags &&& SP_RULE_FLAG_MATCH_PROTOCOL) != 0 &&
      !((skb.ip_protocol == rule.inner.protocol_number) ^^
        ((flags &&& SP_RULE_FLAG_MATCH_PROTOCOL_SENSE) != 0)) then
    false
  else
    let tcp_or_udp := skb.ip_protocol == IPPROTO_TCP || skb.ip_protocol == IPPROTO_UDP
    let sport := if tcp_or_udp then skb.src_port else 0
    let dport := if tcp_or_udp then skb.dst_port else 0
    if (flags &&& SP_RULE_FLAG_MATCH_SRC_PORT) != 0 &&
        !((sport == rule.inner.src_port) ^^
          ((flags &&& SP_RULE_FLAG_MATCH_SRC_PORT_SENSE) != 0)) then
      false
    else if (flags &&& SP_RULE_FLAG_MATCH_DST_PORT) != 0 &&
        !((dport == rule.inner.dst_port) ^^
          ((flags &&& SP_RULE_FLAG_MATCH_DST_PORT_SENSE) != 0)) then
      false
    else
      true

/-! ## SAWF-family matcher -/
/-!
The SAWF-family matcher `sp_mapdb_rule_match_sawf`, transcribed check for
check.  The C function writes through the caller's `params` pointer when a
mask flag is active (it masks the input value in place before comparing), so
the embedding threads the params record through and returns the possibly
updated record next to the verdict.  The single C function is split here
into one Lean definition per in-place masking point, composed in the exact
order of the C checks.
-/

/-- Final segment of the SAWF matcher: the SPI check, which masks the
caller's SPI in place with the rule's pattern mask and compares against the
pattern value. -/
def sawf_match_spi (rule : sp_rule) (params : sp_rule_input_params) :
    Bool × sp_rule_input_params :=
  let flags := rule.inner.flags_sawf
  let p :=
    if (flags &&& SP_RULE_FLAG_MATCH_SCS_SPI) != 0 then
      { params with spi := params.spi &&& rule.inner.match_pattern_mask }
    else params
  if (flags &&& SP_RULE_FLAG_MATCH_SCS_SPI) != 0 &&
      p.spi != rule.inner.match_pattern_value then
    (false, p)
  else
    (true, p)

/-- Segment of the SAWF matcher from the source-IPv4 check on: masks the
caller's source IPv4 address in place when the mask flag is active, then
runs the source-IPv4, protocol, DSCP, VLAN-PCP and VLAN-id checks before
handing over to the SPI segment. -/
def sawf_match_from_src_ipv4 (rule : sp_rule) (params : sp_rule_input_params) :
    Bool × sp_rule_input_params :=
  let flags := rule.inner.flags_sawf
  let p :=
    if (flags &&& SP_RULE_FLAG_MATCH_SAWF_SRC_IPV4) != 0 &&
        (flags &&& SP_RULE_FLAG_MATCH_SAWF_SRC_IPV4_MASK) != 0 then
      { params with src_ipv4_addr := params.src_ipv4_addr &&& rule.inner.src_ipv4_addr_mask }
    else params
  if (flags &&& SP_RULE_FLAG_MATCH_SAWF_SRC_IPV4) != 0 &&
      p.src_ipv4_addr != rule.inner.src_ipv4_addr then
    (false, p)
  else if (flags &&& SP_RULE_FLAG_MATCH_SAWF_PROTOCOL) != 0 &&
      p.protocol != rule.inner.protocol_number then
    (false, p)
  else if (flags &&& SP_RULE_FLAG_MATCH_SAWF_DSCP) != 0 &&
      p.dscp != rule.inner.dscp then
    (false, p)
  else if (flags &&& SP_RULE_FLAG_MATCH_SAWF_VLAN_PCP) != 0 &&
      (p.vlan_tci == SP_RULE_INVALID_VLAN_TCI ||
       ((p.vlan_tci &&& VLAN_PRIO_MASK) >>> VLAN_PRIO_SHIFT) != rule.inner.vlan_pcp) then
    (false, p)
  else if (flags &&& SP_RULE_FLAG_MATCH_SAWF_VLAN_ID) != 0 &&
      (p.vlan_tci == SP_RULE_INVALID_VLAN_TCI ||
       (p.vlan_tci &&& VLAN_VID_MASK) != rule.inner.vlan_id) then
    (false, p)
  else
    sawf_match_spi rule p

/-- Segment of the SAWF matcher from the destination-IPv6 check on: masks
the caller's destination IPv6 address in place when the mask flag is active,
then runs the destination-IPv6, source-port and source-port-range checks. -/
def sawf_match_from_dst_ipv6 (rule : sp_rule) (params : sp_rule_input_params) :
    Bool × sp_rule_input_params :=
  let flags := rule.inner.flags_sawf
  let p :=
    if (flags &&& SP_RULE_FLAG_MATCH_SAWF_DST_IPV6) != 0 &&
        (flags &&& SP_RULE_FLAG_MATCH_SAWF_DST_IPV6_MASK) != 0 then
      { params with dst_ipv6_addr := params.dst_ipv6_addr &&& rule.inner.dst_ipv6_addr_mask }
    else params
  if (flags &&& SP_RULE_FLAG_MATCH_SAWF_DST_IPV6) != 0 &&
      p.dst_ipv6_addr != rule.inner.dst_ipv6_addr then
    (false, p)
  else if (flags &&& SP_RULE_FLAG_MATCH_SAWF_SRC_PORT) != 0 &&
      p.src_port != rule.inner.src_port then
    (false, p)
  else if (flags &&& SP_RULE_FLAG_MATCH_SAWF_SRC_PORT_RANGE_START) != 0 &&
      (flags &&& SP_RULE_FLAG_MATCH_SAWF_SRC_PORT_RANGE_END) != 0 &&
      !(rule.inner.src_port_range_start ≤ p.src_port &&
        p.src_port ≤ rule.inner.src_port_range_end) then
    (false, p)
  else
    sawf_match_from_src_ipv4 rule p

/-- Segment of the SAWF matcher from the source-IPv6 check on: masks the
caller's source IPv6 address in place when the mask flag is active, then
runs the source-IPv6 check. -/
def sawf_match_from_src_ipv6 (rule : sp_rule) (params : sp_rule_input_params) :
    Bool × sp_rule_input_params :=
  let flags := rule.inner.flags_sawf
  let p :=
    if (flags &&& SP_RULE_FLAG_MATCH_SAWF_SRC_IPV6) != 0 &&
        (flags &&& SP_RULE_FLAG_MATCH_SAWF_SRC_IPV6_MASK) != 0 then
      { params with src_ipv6_addr := params.src_ipv6_addr &&& rule.inner.src_ipv6_addr_mask }
    else params
  if (flags &&& SP_RULE_FLAG_MATCH_SAWF_SRC_IPV6) != 0 &&
      p.src_ipv6_addr != rule.inner.src_ipv6_addr then
    (false, p)
  else
    sawf_match_from_dst_ipv6 rule p

/-- Entry point of the SAWF-family matcher `sp_mapdb_rule_match_sawf`: the
ip-version, destination-MAC (with the SAWF_SCS device-address fallback),
destination-port and destination-port-range checks, then the masked
destination-IPv4 and source-MAC checks, then the remaining segments. -/
def sp_mapdb_rule_match_sawf (rule : sp_rule) (params : sp_rule_input_params) :
    Bool × sp_rule_input_params :=
  let flags := rule.inner.flags_sawf
  if (flags &&& SP_RULE_FLAG_MATCH_SAWF_IP_VERSION_TYPE) != 0 &&
      params.ip_version_type != rule.inner.ip_version_type then
    (false, params)
  else if (flags &&& SP_RULE_FLAG_MATCH_SAWF_DST_MAC) != 0 &&
      params.dst_mac != rule.inner.da &&
      !(rule.classifier_type == SP_RULE_TYPE_SAWF_SCS &&
        params.dev_addr == rule.inner.da && params.ifindex == rule.inner.ifindex) then
    (false, params)
  else if (flags &&& SP_RULE_FLAG_MATCH_SAWF_DST_PORT) != 0 &&
      params.dst_port != rule.inner.dst_port then
    (false, params)
  else if (flags &&& SP_RULE_FLAG_MATCH_SAWF_DST_PORT_RANGE_START) != 0 &&
      (flags &&& SP_RULE_FLAG_MATCH_SAWF_DST_PORT_RANGE_END) != 0 &&
      !(rule.inner.dst_port_range_start ≤ params.dst_port &&
        params.dst_port ≤ rule.inner.dst_port_range_end) then
    (false, params)
  else
    let p :=
      if (flags &&& SP_RULE_FLAG_MATCH_SAWF_DST_IPV4) != 0 &&
          (flags &&& SP_RULE_FLAG_MATCH_SAWF_DST_IPV4_MASK) != 0 then
        { params with dst_ipv4_addr := params.dst_ipv4_addr &&& rule.inner.dst_ipv4_addr_mask }
      else params
    if (flags &&& SP_RULE_FLAG_MATCH_SAWF_DST_IPV4) != 0 &&
        p.dst_ipv4_addr != rule.inner.dst_ipv4_addr then
      (false, p)
    else if (flags &&& SP_RULE_FLAG_MATCH_SAWF_SOURCE_MAC) != 0 &&
        p.src_mac != rule.inner.sa then
      (false, p)
    else
      sawf_match_from_src_ipv6 rule p
/-! ## Rule table and updater -/

/-- Unique key of a rule: the (id, classifier type) pair. -/
def ruleKey (r : sp_rule) : Nat × Nat :=
  (r.id, r.classifier_type)

/-- Boolean key test used by the hash lookup of `sp_mapdb_search_hashentry`. -/
def keyMatches (ruleid rule_type : Nat) (r : sp_rule) : Bool :=
  r.id == ruleid && r.classifier_type == rule_type

/-- The rule manager state (`struct sp_mapdb_rule_manager`): the flat list of
live rule nodes together with the stored rule counter.  The C precedence
array and hash index are in lock-step views of the same set of nodes, so the
embedding keeps one list; bucket `i` of the precedence map is recovered by
filtering on the stored precedence, and prepending to the list coincides with
`list_add_rcu` prepending to the bucket list of the new node's precedence. -/
structure sp_mapdb_rule_manager where
  nodes : List sp_rule := []
  rule_count : Nat := 0
  deriving DecidableEq, Repr

/-- Initial state established by `sp_mapdb_rules_init`: all buckets empty and
the counter zero. -/
def sp_mapdb_init : sp_mapdb_rule_manager :=
  { nodes := [], rule_count := 0 }

/-- Precedence bucket `i`: the live nodes stored with precedence `i`, in
list order. -/
def bucket (nodes : List sp_rule) (i : Nat) : List sp_rule :=
  nodes.filter (fun r => r.rule_precedence == i)

/-- The hash lookup `sp_mapdb_search_hashentry`: the live node with the given
(id, type) key, if any. -/
def sp_mapdb_search_hashentry (m : sp_mapdb_rule_manager) (ruleid rule_type : Nat) :
    Option sp_rule :=
  m.nodes.find? (keyMatches ruleid rule_type)

/-- Replace the first node satisfying `p` with `new`, keeping its position
(the `list_replace_rcu` of the modify-in-place path). -/
def replaceFirst (p : sp_rule → Bool) (new : sp_rule) : List sp_rule → List sp_rule
  | [] => []
  | r :: rest => if p r then new :: rest else r :: replaceFirst p new rest

/-- Remove the first node satisfying `p` (the `list_del_rcu` of the delete and
modify-with-move paths). -/
def removeFirst (p : sp_rule → Bool) : List sp_rule → List sp_rule
  | [] => []
  | r :: rest => if p r then rest else r :: removeFirst p rest

/-- Result codes of an update (`sp_mapdb_update_result_t`).  The allocation
failures of the C code cannot occur in the embedding and are omitted. -/
inductive sp_mapdb_update_result where
  | success_add
  | success_modify
  | success_delete
  | err_tblfull
  | err_invalidentry
  | err_tblempty
  | err_rulenoexist
  | err_unknownbit
  deriving DecidableEq, Repr

export sp_mapdb_update_result (success_add success_modify success_delete
  err_tblfull err_invalidentry err_tblempty err_rulenoexist err_unknownbit)

/-- The add/modify path `sp_mapdb_rule_add`: reject on a full table or an
out-of-range output; normalize the precedence sentinel to 0; then insert a
fresh node, replace in place when the precedence is unchanged, or move
between buckets otherwise. -/
def sp_mapdb_rule_add (m : sp_mapdb_rule_manager) (newrule : sp_rule) (rule_type : Nat) :
    sp_mapdb_update_result × sp_mapdb_rule_manager :=
  if m.rule_count == SP_MAPDB_RULE_MAX then
    (err_tblfull, m)
  else if SP_MAPDB_NO_MATCH ≤ newrule.inner.rule_output then
    (err_invalidentry, m)
  else
    let prec :=
      if newrule.rule_precedence == SP_MAPDB_RULE_MAX_PRECEDENCENUM then 0
      else newrule.rule_precedence
    let stored : sp_rule :=
      { newrule with classifier_type := rule_type, rule_precedence := prec }
    match sp_mapdb_search_hashentry m newrule.id rule_type with
    | none =>
        (success_add,
         { nodes := stored :: m.nodes, rule_count := m.rule_count + 1 })
    | some cur =>
        if cur.rule_precedence == prec then
          (success_modify,
           { m with nodes := replaceFirst (keyMatches newrule.id rule_type) stored m.nodes })
        else
          (success_modify,
           { m with nodes := stored :: removeFirst (keyMatches newrule.id rule_type) m.nodes })

/-- The delete path `sp_mapdb_rule_delete`: reject when the table is empty or
the key is not live; otherwise detach the node and decrement the counter. -/
def sp_mapdb_rule_delete (m : sp_mapdb_rule_manager) (ruleid rule_type : Nat) :
    sp_mapdb_update_result × sp_mapdb_rule_manager :=
  if m.rule_count == 0 then
    (err_tblempty, m)
  else
    match sp_mapdb_search_hashentry m ruleid rule_type with
    | none => (err_rulenoexist, m)
    | some _ =>
        (success_delete,
         { nodes := removeFirst (keyMatches ruleid rule_type) m.nodes,
           rule_count := m.rule_count - 1 })

/-- The bulk clear `sp_mapdb_ruletable_flush`: a no-op on an empty table,
otherwise every bucket and the index are emptied and the counter reset. -/
def sp_mapdb_ruletable_flush (m : sp_mapdb_rule_manager) : sp_mapdb_rule_manager :=
  if m.rule_count == 0 then m else { nodes := [], rule_count := 0 }

/-- The update dispatcher `sp_mapdb_rule_update`: route on the command field
to delete or add, rejecting unknown commands. -/
def sp_mapdb_rule_update (m : sp_mapdb_rule_manager) (newrule : sp_rule) :
    sp_mapdb_update_result × sp_mapdb_rule_manager :=
  if newrule.cmd == SP_MAPDB_ADD_REMOVE_FILTER_DELETE then
    sp_mapdb_rule_delete m newrule.id newrule.classifier_type
  else if newrule.cmd == SP_MAPDB_ADD_REMOVE_FILTER_ADD then
    sp_mapdb_rule_add m newrule newrule.classifier_type
  else
    (err_unknownbit, m)

/-- An administrative operation on the table: an update request or a flush. -/
inductive sp_mapdb_op where
  | update (newrule : sp_rule)
  | flush
  deriving Repr

/-- Apply one administrative operation to the table state. -/
def sp_mapdb_apply_op (m : sp_mapdb_rule_manager) : sp_mapdb_op → sp_mapdb_rule_manager
  | sp_mapdb_op.update newrule => (sp_mapdb_rule_update m newrule).2
  | sp_mapdb_op.flush => sp_mapdb_ruletable_flush m

/-- Run a sequence of administrative operations from the initialized empty
table. -/
def sp_mapdb_run (ops : List sp_mapdb_op) : sp_mapdb_rule_manager :=
  ops.foldl sp_mapdb_apply_op sp_mapdb_init

/-! ## Precedence-descending searches -/

/-- One descending pass of the MESH search loop: try bucket `i` (first match
of a MESH-typed rule wins, in bucket list order), then the buckets below it. -/
def meshScanAux (skb : sk_buff) (smac dmac : Nat) (nodes : List sp_rule) :
    Nat → Option sp_rule
  | 0 =>
      (bucket nodes 0).find?
        (fun r => r.classifier_type == SP_RULE_TYPE_MESH &&
          sp_mapdb_rule_match skb r smac dmac)
  | i + 1 =>
      match (bucket nodes (i + 1)).find?
          (fun r => r.classifier_type == SP_RULE_TYPE_MESH &&
            sp_mapdb_rule_match skb r smac dmac) with
      | some r => some r
      | none => meshScanAux skb smac dmac nodes i

/-- The `set_output` resolution at the end of `sp_mapdb_ruletable_search`:
sentinel outputs are replaced by the frame's priority, a DSCP-derived
priority, or the default PCP. -/
def sp_mapdb_set_output (output : Nat) (skb : sk_buff) : Nat :=
  if output == SP_MAPDB_USE_UP then
    skb.priority
  else if output == SP_MAPDB_USE_DSCP then
    if skb.protocol == ETH_P_IP then skb.dsfield >>> 5
    else if skb.protocol == ETH_P_IPV6 then skb.dsfield >>> 5
    else SP_MAPDB_RULE_DEFAULT_PCP
  else if output == SP_MAPDB_NO_MATCH then
    SP_MAPDB_RULE_DEFAULT_PCP
  else
    output

/-- Raw output selection of `sp_mapdb_ruletable_search`: the use-DSCP sentinel
on an empty table, the matched MESH rule's stored output, or the no-match
sentinel. -/
def sp_mapdb_ruletable_search_output (m : sp_mapdb_rule_manager) (skb : sk_buff)
    (smac dmac : Nat) : Nat :=
  if m.rule_count == 0 then
    SP_MAPDB_USE_DSCP
  else
    match meshScanAux skb smac dmac m.nodes (SP_MAPDB_RULE_MAX_PRECEDENCENUM - 1) with
    | some r => r.inner.rule_output
    | none => SP_MAPDB_NO_MATCH

/-- The MESH classification `sp_mapdb_ruletable_search`: scan the precedence
buckets from the highest index down to 0 and resolve the winning (or
sentinel) output. -/
def sp_mapdb_ruletable_search (m : sp_mapdb_rule_manager) (skb : sk_buff)
    (smac dmac : Nat) : Nat :=
  sp_mapdb_set_output (sp_mapdb_ruletable_search_output m skb smac dmac) skb

/-- Inner MSCS loop over one bucket list, threading the caller's params
record through the SAWF matcher exactly as the C code reuses the same
`params` pointer for every candidate rule.  A field-matching MSCS rule is
accepted only when its TID bitmap is valid and has the bit of the caller's
current priority set; otherwise the scan continues. -/
def mscsBucket (prio : Nat) : List sp_rule → sp_rule_input_params →
    Option (Nat × Nat) × sp_rule_input_params
  | [], params => (none, params)
  | r :: rest, params =>
      if r.classifier_type == SP_RULE_TYPE_MSCS then
        let res := sp_mapdb_rule_match_sawf r params
        if res.1 &&
            r.inner.mscs_tid_bitmap != SP_RULE_INVALID_MSCS_TID_BITMAP &&
            ((1 <<< prio) &&& r.inner.mscs_tid_bitmap) != 0 then
          (some (prio, r.id), res.2)
        else
          mscsBucket prio rest res.2
      else
        mscsBucket prio rest params

/-- Descending pass of the MSCS search over the precedence buckets. -/
def mscsScanAux (prio : Nat) (nodes : List sp_rule) :
    Nat → sp_rule_input_params → Option (Nat × Nat)
  | 0, params => (mscsBucket prio (bucket nodes 0) params).1
  | i + 1, params =>
      match mscsBucket prio (bucket nodes (i + 1)) params with
      | (some res, _) => some res
      | (none, params') => mscsScanAux prio nodes i params'

/-- The MSCS classification `sp_mapdb_apply_mscs`: scan MSCS-typed rules in
precedence-descending order; an accepted match echoes the caller's current
priority (`skb->priority`) back with the rule id; otherwise the invalid
sentinels are returned.  The result models the `priority` and `rule_id`
fields of the output struct. -/
def sp_mapdb_apply_mscs (m : sp_mapdb_rule_manager) (skb_priority : Nat)
    (params : sp_rule_input_params) : Nat × Nat :=
  if m.rule_count == 0 then
    (SP_RULE_INVALID_PRIORITY, SP_RULE_INVALID_RULE_ID)
  else
    match mscsScanAux skb_priority m.nodes (SP_MAPDB_RULE_MAX_PRECEDENCENUM - 1) params with
    | some res => res
    | none => (SP_RULE_INVALID_PRIORITY, SP_RULE_INVALID_RULE_ID)

/-! ## Helper lemmas about keys, buckets and list surgery -/

/-- The boolean key test holds exactly on rules with the given key. -/
theorem keyMatches_iff (ruleid rule_type : Nat) (r : sp_rule) :
    keyMatches ruleid rule_type r = true ↔ ruleKey r = (ruleid, rule_type) := by
  simp [keyMatches, ruleKey, Prod.ext_iff]

/-- Bucket membership: a rule is in bucket `i` exactly when it is live and
stored with precedence `i`. -/
theorem mem_bucket {nodes : List sp_rule} {r : sp_rule} {i : Nat} :
    r ∈ bucket nodes i ↔ r ∈ nodes ∧ r.rule_precedence = i := by
  simp [bucket, List.mem_filter]

/-- A bitwise or vanishes exactly when both operands do. -/
theorem nat_or_eq_zero {x y : Nat} : x ||| y = 0 ↔ x = 0 ∧ y = 0 := by
  constructor
  · intro h
    refine ⟨Nat.zero_of_testBit_eq_false fun i => ?_,
      Nat.zero_of_testBit_eq_false fun i => ?_⟩ <;>
      · have := congrArg (fun n => Nat.testBit n i) h
        simp [Nat.testBit_lor] at this
        tauto
  · rintro ⟨rfl, rfl⟩
    rfl

/-- Replacing in place preserves the list length. -/
theorem length_replaceFirst (p : sp_rule → Bool) (new : sp_rule) (l : List sp_rule) :
    (replaceFirst p new l).length = l.length := by
  induction l with
  | nil => rfl
  | cons a rest ih =>
      by_cases h : p a <;> simp [replaceFirst, h, ih]

/-- Replacing a node by one with the same key leaves the key sequence
unchanged. -/
theorem map_ruleKey_replaceFirst (p : sp_rule → Bool) (new : sp_rule) (l : List sp_rule)
    (hkey : ∀ x, p x = true → ruleKey x = ruleKey new) :
    (replaceFirst p new l).map ruleKey = l.map ruleKey := by
  induction l with
  | nil => rfl
  | cons a rest ih =>
      by_cases h : p a
      · simp [replaceFirst, h, hkey a h]
      · simp [replaceFirst, h, ih]

/-- The replacement node is present after a replace that found its target. -/
theorem mem_replaceFirst_of_exists (p : sp_rule → Bool) (new : sp_rule) (l : List sp_rule)
    (h : ∃ x ∈ l, p x = true) :
    new ∈ replaceFirst p new l := by
  induction l with
  | nil => simp at h
  | cons a rest ih =>
      by_cases hpa : p a
      · simp [replaceFirst, hpa]
      · obtain ⟨x, hx, hpx⟩ := h
        rcases List.mem_cons.1 hx with hxa | hxr
        · exact absurd (hxa ▸ hpx) (by simp [hpa])
        · simp only [replaceFirst, hpa, if_neg]
          exact List.mem_cons_of_mem a (ih ⟨x, hxr, hpx⟩)

/-- Removing the first hit yields a sublist. -/
theorem removeFirst_sublist (p : sp_rule → Bool) (l : List sp_rule) :
    List.Sublist (removeFirst p l) l := by
  induction l with
  | nil => simp [removeFirst]
  | cons a rest ih =>
      by_cases h : p a
      · rw [show removeFirst p (a :: rest) = rest from by simp [removeFirst, h]]
        exact List.sublist_cons_self a rest
      · simpa [removeFirst, h] using ih.cons₂ a

/-- Removing an existing hit shortens the list by exactly one node. -/
theorem length_removeFirst_of_exists (p : sp_rule → Bool) (l : List sp_rule)
    (h : ∃ x ∈ l, p x = true) :
    (removeFirst p l).length + 1 = l.length := by
  induction l with
  | nil => simp at h
  | cons a rest ih =>
      by_cases hpa : p a
      · simp [removeFirst, hpa]
      · obtain ⟨x, hx, hpx⟩ := h
        rcases List.mem_cons.1 hx with hxa | hxr
        · exact absurd (hxa ▸ hpx) (by simp [hpa])
        · simp [removeFirst, hpa, ih ⟨x, hxr, hpx⟩]

/-- After removing the only node with a given key from a duplicate-free list,
the key is gone. -/
theorem not_mem_key_removeFirst (ruleid rule_type : Nat) (l : List sp_rule)
    (hnd : (l.map ruleKey).Nodup) :
    (ruleid, rule_type) ∉ (removeFirst (keyMatches ruleid rule_type) l).map ruleKey := by
  induction l with
  | nil => simp [removeFirst]
  | cons a rest ih =>
      simp only [List.map_cons] at hnd
      obtain ⟨hna, hnr⟩ := List.nodup_cons.1 hnd
      by_cases h : keyMatches ruleid rule_type a
      · have hk := (keyMatches_iff _ _ a).1 h
        have hrw : removeFirst (keyMatches ruleid rule_type) (a :: rest) = rest := by
          simp [removeFirst, h]
        rw [hrw]
        exact hk ▸ hna
      · have hk : ruleKey a ≠ (ruleid, rule_type) := fun hcontra =>
          h ((keyMatches_iff _ _ a).2 hcontra)
        have hrw : removeFirst (keyMatches ruleid rule_type) (a :: rest) =
            a :: removeFirst (keyMatches ruleid rule_type) rest := by
          simp [removeFirst, h]
        rw [hrw, List.map_cons]
        intro hmem
        rcases List.mem_cons.1 hmem with h1 | h1
        · exact hk h1.symm
        · exact ih hnr h1

/-! ## Update-path invariant (claim C2) -/

/-- Structural invariant of the rule manager: the stored counter equals the
number of live nodes, the (id, type) keys of the live nodes are pairwise
distinct, and the counter never exceeds the table bound. -/
def table_inv (m : sp_mapdb_rule_manager) : Prop :=
  m.rule_count = m.nodes.length ∧ (m.nodes.map ruleKey).Nodup ∧
    m.rule_count ≤ SP_MAPDB_RULE_MAX

/-- The initialized table satisfies the invariant. -/
theorem table_inv_init : table_inv sp_mapdb_init := by
  refine ⟨rfl, by simp [sp_mapdb_init], ?_⟩
  simp [sp_mapdb_init, SP_MAPDB_RULE_MAX]

/-- The add/modify path preserves the invariant. -/
theorem table_inv_add (m : sp_mapdb_rule_manager) (nr : sp_rule) (t : Nat)
    (h : table_inv m) : table_inv (sp_mapdb_rule_add m nr t).2 := by
  obtain ⟨hc, hnd, hle⟩ := h
  unfold sp_mapdb_rule_add
  by_cases hfull : m.rule_count = SP_MAPDB_RULE_MAX
  · rw [if_pos (by simp [hfull])]
    exact ⟨hc, hnd, hle⟩
  · rw [if_neg (by simp [hfull] : ¬((m.rule_count == SP_MAPDB_RULE_MAX) = true))]
    by_cases hout : SP_MAPDB_NO_MATCH ≤ nr.inner.rule_output
    · rw [if_pos hout]
      exact ⟨hc, hnd, hle⟩
    · rw [if_neg hout]
      cases hfind : sp_mapdb_search_hashentry m nr.id t with
      | none =>
          simp only [hfind]
          have hall := List.find?_eq_none.1 hfind
          have hnotin : (nr.id, t) ∉ m.nodes.map ruleKey := by
            intro hmem
            obtain ⟨x, hx, hkx⟩ := List.mem_map.1 hmem
            exact hall x hx ((keyMatches_iff _ _ x).2 hkx)
          have hlt := Nat.lt_of_le_of_ne hle hfull
          split <;>
          · refine ⟨?_, ?_, ?_⟩
            · simpa using hc
            · simp only [List.map_cons, List.nodup_cons]
              exact ⟨by simpa [ruleKey] using hnotin, hnd⟩
            · dsimp only
              omega
      | some cur =>
          simp only [hfind]
          have hex : ∃ x ∈ m.nodes, keyMatches nr.id t x = true :=
            ⟨cur, List.mem_of_find?_eq_some hfind, List.find?_some hfind⟩
          have hlen := length_removeFirst_of_exists (keyMatches nr.id t) m.nodes hex
          split <;> split <;>
            first
            | -- modify-in-place branches
              refine ⟨?_, ?_, hle⟩
              · dsimp only
                rw [length_replaceFirst]
                exact hc
              · dsimp only
                rw [map_ruleKey_replaceFirst]
                · exact hnd
                · intro x hx
                  rw [(keyMatches_iff _ _ x).1 hx]
                  rfl
            | -- modify-with-move branches
              refine ⟨?_, ?_, hle⟩
              · dsimp only
                simp only [List.length_cons]
                omega
              · dsimp only
                simp only [List.map_cons, List.nodup_cons]
                refine ⟨?_, hnd.sublist ((removeFirst_sublist _ m.nodes).map ruleKey)⟩
                simpa [ruleKey] using not_mem_key_removeFirst nr.id t m.nodes hnd

/-- The delete path preserves the invariant. -/
theorem table_inv_delete (m : sp_mapdb_rule_manager) (ruleid rule_type : Nat)
    (h : table_inv m) : table_inv (sp_mapdb_rule_delete m ruleid rule_type).2 := by
  obtain ⟨hc, hnd, hle⟩ := h
  unfold sp_mapdb_rule_delete
  by_cases hzero : m.rule_count = 0
  · rw [if_pos (by simp [hzero])]
    exact ⟨hc, hnd, hle⟩
  · rw [if_neg (by simp [hzero] : ¬((m.rule_count == 0) = true))]
    cases hfind : sp_mapdb_search_hashentry m ruleid rule_type with
    | none =>
        simp only [hfind]
        exact ⟨hc, hnd, hle⟩
    | some cur =>
        simp only [hfind]
        have hex : ∃ x ∈ m.nodes, keyMatches ruleid rule_type x = true :=
          ⟨cur, List.mem_of_find?_eq_some hfind, List.find?_some hfind⟩
        have hlen := length_removeFirst_of_exists (keyMatches ruleid rule_type) m.nodes hex
        refine ⟨?_, ?_, ?_⟩
        · dsimp only
          omega
        · exact hnd.sublist ((removeFirst_sublist _ m.nodes).map ruleKey)
        · dsimp only
          omega

/-- Flushing preserves the invariant. -/
theorem table_inv_flush (m : sp_mapdb_rule_manager) (h : table_inv m) :
    table_inv (sp_mapdb_ruletable_flush m) := by
  unfold sp_mapdb_ruletable_flush
  split
  · exact h
  · exact ⟨rfl, by simp, by simp [SP_MAPDB_RULE_MAX]⟩

/-- Every administrative operation preserves the invariant. -/
theorem table_inv_apply_op (m : sp_mapdb_rule_manager) (op : sp_mapdb_op)
    (h : table_inv m) : table_inv (sp_mapdb_apply_op m op) := by
  cases op with
  | update nr =>
      show table_inv (sp_mapdb_rule_update m nr).2
      unfold sp_mapdb_rule_update
      by_cases h1 : (nr.cmd == SP_MAPDB_ADD_REMOVE_FILTER_DELETE) = true
      · rw [if_pos h1]
        exact table_inv_delete m nr.id nr.classifier_type h
      · rw [if_neg h1]
        by_cases h2 : (nr.cmd == SP_MAPDB_ADD_REMOVE_FILTER_ADD) = true
        · rw [if_pos h2]
          exact table_inv_add m nr nr.classifier_type h
        · rw [if_neg h2]
          exact h
  | flush => exact table_inv_flush m h

/-- Any operation sequence run from the initialized table ends in a state
satisfying the invariant. -/
theorem table_inv_run (ops : List sp_mapdb_op) : table_inv (sp_mapdb_run ops) := by
  unfold sp_mapdb_run
  have hgen : ∀ (l : List sp_mapdb_op) (m : sp_mapdb_rule_manager), table_inv m →
      table_inv (l.foldl sp_mapdb_apply_op m) := by
    intro l
    induction l with
    | nil => intro m hm; exact hm
    | cons op rest ih =>
        intro m hm
        exact ih _ (table_inv_apply_op m op hm)
  exact hgen ops sp_mapdb_init table_inv_init

/-! ## Claim theorems: updater -/

/-- Claim C2: for every sequence of update operations (add, modify, delete,
flush) starting from the initialized empty table, after each operation the
rule count equals the number of distinct (id, rule_type) pairs currently
live, at most one live rule exists per (id, rule_type) pair, and the count
never exceeds `SP_MAPDB_RULE_MAX`. -/
theorem claim_C2_count_invariant (ops : List sp_mapdb_op) :
    (sp_mapdb_run ops).rule_count =
      (((sp_mapdb_run ops).nodes.map ruleKey).dedup).length ∧
    ((sp_mapdb_run ops).nodes.map ruleKey).Nodup ∧
    (sp_mapdb_run ops).rule_count ≤ SP_MAPDB_RULE_MAX := by
  obtain ⟨hc, hnd, hle⟩ := table_inv_run ops
  refine ⟨?_, hnd, hle⟩
  rw [List.Nodup.dedup hnd, List.length_map]
  exact hc

/-- Claim C7: deleting an (id, rule_type) pair that is not present returns
the rule-not-found error, and the table-empty error when the table holds no
rules; in both cases the state (nodes and count) is returned unchanged. -/
theorem claim_C7_delete_missing (m : sp_mapdb_rule_manager) (ruleid rule_type : Nat) :
    (m.rule_count = 0 →
      sp_mapdb_rule_delete m ruleid rule_type = (err_tblempty, m)) ∧
    (m.rule_count ≠ 0 →
      sp_mapdb_search_hashentry m ruleid rule_type = none →
      sp_mapdb_rule_delete m ruleid rule_type = (err_rulenoexist, m)) := by
  constructor
  · intro h
    unfold sp_mapdb_rule_delete
    rw [if_pos (by simp [h])]
  · intro h hfind
    unfold sp_mapdb_rule_delete
    rw [if_neg (by simp [h] : ¬((m.rule_count == 0) = true))]
    simp only [hfind]

/-- A one-rule table used to exercise the delete error paths. -/
def spec_c7_state : sp_mapdb_rule_manager :=
  { nodes := [{ id := 1, classifier_type := SP_RULE_TYPE_MESH }], rule_count := 1 }

/-- Witness for claim C7 at concrete inputs: deleting from the empty table
reports table-empty, deleting an absent id from a populated table reports
rule-not-found, and both leave the state unchanged. -/
theorem claim_C7_witness :
    sp_mapdb_rule_delete sp_mapdb_init 5 SP_RULE_TYPE_MESH = (err_tblempty, sp_mapdb_init) ∧
    sp_mapdb_rule_delete spec_c7_state 2 SP_RULE_TYPE_MESH = (err_rulenoexist, spec_c7_state) :=
  ⟨(claim_C7_delete_missing sp_mapdb_init 5 SP_RULE_TYPE_MESH).1 rfl,
   (claim_C7_delete_missing spec_c7_state 2 SP_RULE_TYPE_MESH).2 (by decide) rfl⟩

/-- Claim C10: whenever the stored rule count equals `SP_MAPDB_RULE_MAX`,
the add path rejects with the table-full error before any key lookup, so
even an add-command request for an already-live key is rejected and the
state is unchanged. -/
theorem claim_C10_add_when_full (m : sp_mapdb_rule_manager) (nr : sp_rule) (t : Nat)
    (h : m.rule_count = SP_MAPDB_RULE_MAX) :
    sp_mapdb_rule_add m nr t = (err_tblfull, m) ∧
    (nr.cmd = SP_MAPDB_ADD_REMOVE_FILTER_ADD →
      sp_mapdb_rule_update m nr = (err_tblfull, m)) := by
  have hadd : ∀ t2, sp_mapdb_rule_add m nr t2 = (err_tblfull, m) := by
    intro t2
    unfold sp_mapdb_rule_add
    rw [if_pos (by simp [h])]
  refine ⟨hadd t, fun hcmd => ?_⟩
  unfold sp_mapdb_rule_update
  rw [if_neg (by simp [hcmd, SP_MAPDB_ADD_REMOVE_FILTER_ADD, SP_MAPDB_ADD_REMOVE_FILTER_DELETE]),
      if_pos (by simp [hcmd])]
  exact hadd nr.classifier_type

/-- A full table holding a live rule with key (7, SAWF). -/
def spec_c10_state : sp_mapdb_rule_manager :=
  { nodes := [{ id := 7, classifier_type := SP_RULE_TYPE_SAWF, rule_precedence := 5 }],
    rule_count := SP_MAPDB_RULE_MAX }

/-- An add-command request that would modify the live rule (7, SAWF). -/
def spec_c10_rule : sp_rule :=
  { id := 7, cmd := SP_MAPDB_ADD_REMOVE_FILTER_ADD, rule_precedence := 5,
    classifier_type := SP_RULE_TYPE_SAWF, inner := { rule_output := 3 } }

/-- Witness for claim C10: with the counter at the bound, the update of an
already-live key is rejected with table-full and the state is unchanged. -/
theorem claim_C10_witness :
    sp_mapdb_rule_update spec_c10_state spec_c10_rule = (err_tblfull, spec_c10_state) :=
  (claim_C10_add_when_full spec_c10_state spec_c10_rule SP_RULE_TYPE_SAWF rfl).2 rfl

/-- Claim C8: an add request carrying the precedence sentinel
`SP_MAPDB_RULE_MAX_PRECEDENCENUM` is accepted (as a new add or as a modify of
the live key) and the stored node carries precedence 0, placing it in
bucket 0 next to any rule explicitly assigned precedence 0. -/
theorem claim_C8_precedence_sentinel (m : sp_mapdb_rule_manager) (nr : sp_rule) (t : Nat)
    (hfull : m.rule_count ≠ SP_MAPDB_RULE_MAX)
    (hout : nr.inner.rule_output < SP_MAPDB_NO_MATCH)
    (hprec : nr.rule_precedence = SP_MAPDB_RULE_MAX_PRECEDENCENUM) :
    ((sp_mapdb_rule_add m nr t).1 = success_add ∨
     (sp_mapdb_rule_add m nr t).1 = success_modify) ∧
    ∃ s, s ∈ (sp_mapdb_rule_add m nr t).2.nodes ∧ s.id = nr.id ∧
      s.classifier_type = t ∧ s.rule_precedence = 0 ∧ s.inner = nr.inner ∧
      s ∈ bucket (sp_mapdb_rule_add m nr t).2.nodes 0 := by
  unfold sp_mapdb_rule_add
  rw [if_neg (by simp [hfull] : ¬((m.rule_count == SP_MAPDB_RULE_MAX) = true)),
      if_neg (by omega : ¬(SP_MAPDB_NO_MATCH ≤ nr.inner.rule_output))]
  have hp : (nr.rule_precedence == SP_MAPDB_RULE_MAX_PRECEDENCENUM) = true := by
    simp [hprec]
  simp only [hp, if_true]
  cases hfind : sp_mapdb_search_hashentry m nr.id t with
  | none =>
      simp only [hfind]
      refine ⟨Or.inl (by trivial),
        { nr with classifier_type := t, rule_precedence := 0 },
        ?_, by trivial, by trivial, by trivial, by trivial, ?_⟩
      · exact List.mem_cons_self _ _
      · exact mem_bucket.2 ⟨List.mem_cons_self _ _, rfl⟩
  | some cur =>
      simp only [hfind]
      have hex : ∃ x ∈ m.nodes, keyMatches nr.id t x = true :=
        ⟨cur, List.mem_of_find?_eq_some hfind, List.find?_some hfind⟩
      split
      · refine ⟨Or.inr (by trivial),
          { nr with classifier_type := t, rule_precedence := 0 },
          ?_, by trivial, by trivial, by trivial, by trivial, ?_⟩
        · exact mem_replaceFirst_of_exists _ _ _ hex
        · exact mem_bucket.2 ⟨mem_replaceFirst_of_exists _ _ _ hex, rfl⟩
      · refine ⟨Or.inr (by trivial),
          { nr with classifier_type := t, rule_precedence := 0 },
          ?_, by trivial, by trivial, by trivial, by trivial, ?_⟩
        · exact List.mem_cons_self _ _
        · exact mem_bucket.2 ⟨List.mem_cons_self _ _, rfl⟩

/-- An add request carrying the precedence sentinel value. -/
def spec_c8_rule : sp_rule :=
  { id := 3, cmd := SP_MAPDB_ADD_REMOVE_FILTER_ADD,
    rule_precedence := SP_MAPDB_RULE_MAX_PRECEDENCENUM,
    classifier_type := SP_RULE_TYPE_MESH, inner := { rule_output := 5 } }

/-- Witness for claim C8: adding the sentinel-precedence rule to the empty
table is accepted and a node with precedence 0 lands in bucket 0. -/
theorem claim_C8_witness :
    ((sp_mapdb_rule_add sp_mapdb_init spec_c8_rule SP_RULE_TYPE_MESH).1 = success_add ∨
     (sp_mapdb_rule_add sp_mapdb_init spec_c8_rule SP_RULE_TYPE_MESH).1 = success_modify) ∧
    ∃ s, s ∈ (sp_mapdb_rule_add sp_mapdb_init spec_c8_rule SP_RULE_TYPE_MESH).2.nodes ∧
      s.id = spec_c8_rule.id ∧ s.classifier_type = SP_RULE_TYPE_MESH ∧
      s.rule_precedence = 0 ∧ s.inner = spec_c8_rule.inner ∧
      s ∈ bucket (sp_mapdb_rule_add sp_mapdb_init spec_c8_rule SP_RULE_TYPE_MESH).2.nodes 0 :=
  claim_C8_precedence_sentinel sp_mapdb_init spec_c8_rule SP_RULE_TYPE_MESH
    (by decide) (by decide) rfl

/-! ## Claim theorems: MESH classification -/

/-- Claim C4: on a table whose rule count is zero, MESH classification of an
IPv4 packet with DS byte 128 (DSCP 32) resolves the use-DSCP sentinel to the
top three DSCP bits, returning 4 — not the raw 6-bit DSCP value 32 and not
the configured default priority. -/
theorem claim_C4_empty_table_dscp (m : sp_mapdb_rule_manager) (skb : sk_buff)
    (smac dmac : Nat) (hm : m.rule_count = 0) (hp : skb.protocol = ETH_P_IP)
    (hd : skb.dsfield = 128) :
    sp_mapdb_ruletable_search m skb smac dmac = 4 ∧
    sp_mapdb_ruletable_search m skb smac dmac ≠ skb.dsfield >>> 2 ∧
    sp_mapdb_ruletable_search m skb smac dmac ≠ SP_MAPDB_RULE_DEFAULT_PCP := by
  have h1 : sp_mapdb_ruletable_search_output m skb smac dmac = SP_MAPDB_USE_DSCP := by
    unfold sp_mapdb_ruletable_search_output
    rw [if_pos (by simp [hm])]
  have hmain : sp_mapdb_ruletable_search m skb smac dmac = 4 := by
    unfold sp_mapdb_ruletable_search
    rw [h1]
    unfold sp_mapdb_set_output
    rw [if_neg (by decide : ¬((SP_MAPDB_USE_DSCP == SP_MAPDB_USE_UP) = true)),
        if_pos (by decide : (SP_MAPDB_USE_DSCP == SP_MAPDB_USE_DSCP) = true),
        if_pos (by simp [hp] : (skb.protocol == ETH_P_IP) = true), hd]
    decide
  refine ⟨hmain, ?_, ?_⟩
  · rw [hmain, hd]
    decide
  · rw [hmain]
    decide

/-- An IPv4 packet carrying DS byte 128, i.e. DSCP 32. -/
def spec_c4_skb : sk_buff :=
  { protocol := ETH_P_IP, dsfield := 128 }

/-- Witness for claim C4 at the initialized empty table. -/
theorem claim_C4_witness :
    sp_mapdb_ruletable_search sp_mapdb_init spec_c4_skb 0 0 = 4 ∧
    sp_mapdb_ruletable_search sp_mapdb_init spec_c4_skb 0 0 ≠ spec_c4_skb.dsfield >>> 2 ∧
    sp_mapdb_ruletable_search sp_mapdb_init spec_c4_skb 0 0 ≠ SP_MAPDB_RULE_DEFAULT_PCP :=
  claim_C4_empty_table_dscp sp_mapdb_init spec_c4_skb 0 0 rfl rfl rfl

/-- Claim C3: a MESH rule whose flag word activates exactly the source-MAC
match and its paired sense bit matches a packet precisely when the packet's
source MAC differs from the rule's stored source MAC; equality aborts the
match.  This is the compare-XOR-sense discipline of the generic matcher at
the source-MAC field. -/
theorem claim_C3_source_mac_sense (skb : sk_buff) (rule : sp_rule) (smac dmac : Nat)
    (hflags : rule.inner.flags =
      SP_RULE_FLAG_MATCH_SOURCE_MAC ||| SP_RULE_FLAG_MATCH_SOURCE_MAC_SENSE) :
    sp_mapdb_rule_match skb rule smac dmac = !(smac == rule.inner.sa) := by
  cases hmac : smac == rule.inner.sa <;>
    simp +decide [sp_mapdb_rule_match, hflags, hmac, sp_ipv4_group_flags,
      SP_RULE_FLAG_MATCH_ALWAYS_TRUE, SP_RULE_FLAG_MATCH_UP,
      SP_RULE_FLAG_MATCH_UP_SENSE,
      SP_RULE_FLAG_MATCH_SOURCE_MAC, SP_RULE_FLAG_MATCH_SOURCE_MAC_SENSE,
      SP_RULE_FLAG_MATCH_DST_MAC, SP_RULE_FLAG_MATCH_DST_MAC_SENSE,
      SP_RULE_FLAG_MATCH_VLAN_ID, SP_RULE_FLAG_MATCH_VLAN_ID_SENSE,
      SP_RULE_FLAG_MATCH_SRC_IPV4, SP_RULE_FLAG_MATCH_SRC_IPV4_SENSE,
      SP_RULE_FLAG_MATCH_DST_IPV4, SP_RULE_FLAG_MATCH_DST_IPV4_SENSE,
      SP_RULE_FLAG_MATCH_SRC_PORT, SP_RULE_FLAG_MATCH_SRC_PORT_SENSE,
      SP_RULE_FLAG_MATCH_DST_PORT, SP_RULE_FLAG_MATCH_DST_PORT_SENSE,
      SP_RULE_FLAG_MATCH_DSCP, SP_RULE_FLAG_MATCH_DSCP_SENSE,
      SP_RULE_FLAG_MATCH_PROTOCOL, SP_RULE_FLAG_MATCH_PROTOCOL_SENSE]

/-- A MESH rule matching on source MAC with the sense bit set, stored
source MAC 0xAABBCCDDEEFF. -/
def spec_c3_rule : sp_rule :=
  { id := 11, classifier_type := SP_RULE_TYPE_MESH,
    inner := { flags := SP_RULE_FLAG_MATCH_SOURCE_MAC |||
                 SP_RULE_FLAG_MATCH_SOURCE_MAC_SENSE,
               sa := 0xAABBCCDDEEFF } }

/-- Witness for claim C3: with the sense bit set, an equal source MAC fails
the match and a different source MAC succeeds. -/
theorem claim_C3_witness :
    sp_mapdb_rule_match {} spec_c3_rule 0xAABBCCDDEEFF 0 =
      !((0xAABBCCDDEEFF : Nat) == spec_c3_rule.inner.sa) ∧
    sp_mapdb_rule_match {} spec_c3_rule 0x010203040506 0 =
      !((0x010203040506 : Nat) == spec_c3_rule.inner.sa) :=
  ⟨claim_C3_source_mac_sense {} spec_c3_rule 0xAABBCCDDEEFF 0 rfl,
   claim_C3_source_mac_sense {} spec_c3_rule 0x010203040506 0 rfl⟩

/-- Descending-scan lemma: if some live MESH rule with precedence at most `i`
matches the packet, the scan starting at bucket `i` returns a winner, and the
winner is a live, matching MESH rule whose precedence is at least that of the
given rule — rules in lower buckets cannot override it. -/
theorem meshScanAux_some_of_mem (skb : sk_buff) (smac dmac : Nat) (nodes : List sp_rule)
    (r : sp_rule) (hr : r ∈ nodes) (ht : r.classifier_type = SP_RULE_TYPE_MESH)
    (hm : sp_mapdb_rule_match skb r smac dmac = true) :
    ∀ i, r.rule_precedence ≤ i →
      ∃ w, meshScanAux skb smac dmac nodes i = some w ∧ w ∈ nodes ∧
        w.classifier_type = SP_RULE_TYPE_MESH ∧
        sp_mapdb_rule_match skb w smac dmac = true ∧
        r.rule_precedence ≤ w.rule_precedence := by
  intro i
  induction i with
  | zero =>
      intro hle
      have hprec : r.rule_precedence = 0 := Nat.le_zero.1 hle
      cases hfound : (bucket nodes 0).find?
          (fun x => x.classifier_type == SP_RULE_TYPE_MESH &&
            sp_mapdb_rule_match skb x smac dmac) with
      | none =>
          exfalso
          have := List.find?_eq_none.1 hfound r (mem_bucket.2 ⟨hr, hprec⟩)
          simp [ht, hm] at this
      | some w =>
          have hw := List.find?_some hfound
          rw [Bool.and_eq_true] at hw
          obtain ⟨hwt, hwmatch⟩ := hw
          obtain ⟨hwmem, hwp⟩ := mem_bucket.1 (List.mem_of_find?_eq_some hfound)
          refine ⟨w, ?_, hwmem, by simpa using hwt, hwmatch, ?_⟩
          · simpa [meshScanAux] using hfound
          · omega
  | succ i ih =>
      intro hle
      cases hfound : (bucket nodes (i + 1)).find?
          (fun x => x.classifier_type == SP_RULE_TYPE_MESH &&
            sp_mapdb_rule_match skb x smac dmac) with
      | some w =>
          have hw := List.find?_some hfound
          rw [Bool.and_eq_true] at hw
          obtain ⟨hwt, hwmatch⟩ := hw
          obtain ⟨hwmem, hwp⟩ := mem_bucket.1 (List.mem_of_find?_eq_some hfound)
          refine ⟨w, ?_, hwmem, by simpa using hwt, hwmatch, ?_⟩
          · simp [meshScanAux, hfound]
          · omega
      | none =>
          have hri : r.rule_precedence ≤ i := by
            by_cases he : r.rule_precedence = i + 1
            · exfalso
              have := List.find?_eq_none.1 hfound r (mem_bucket.2 ⟨hr, he⟩)
              simp [ht, hm] at this
            · omega
          obtain ⟨w, hws, hrest⟩ := ih hri
          exact ⟨w, by simp [meshScanAux, hfound, hws], hrest⟩

/-- Claim C1: the MESH classification scan examines precedence buckets in
descending order and the first matching MESH rule wins: whenever some live
MESH rule matches the packet, the scan returns a winning matching MESH rule
of precedence at least as high, and the search result is exactly the
resolution of that winner's stored output — no lower-precedence rule
influences the result. -/
theorem claim_C1_precedence_order (m : sp_mapdb_rule_manager) (skb : sk_buff)
    (smac dmac : Nat) (r : sp_rule) (hr : r ∈ m.nodes)
    (ht : r.classifier_type = SP_RULE_TYPE_MESH)
    (hm : sp_mapdb_rule_match skb r smac dmac = true)
    (hp : r.rule_precedence < SP_MAPDB_RULE_MAX_PRECEDENCENUM)
    (hc : m.rule_count ≠ 0) :
    ∃ w, meshScanAux skb smac dmac m.nodes (SP_MAPDB_RULE_MAX_PRECEDENCENUM - 1) = some w ∧
      w ∈ m.nodes ∧ w.classifier_type = SP_RULE_TYPE_MESH ∧
      sp_mapdb_rule_match skb w smac dmac = true ∧
      r.rule_precedence ≤ w.rule_precedence ∧
      sp_mapdb_ruletable_search m skb smac dmac =
        sp_mapdb_set_output w.inner.rule_output skb := by
  have hle : r.rule_precedence ≤ SP_MAPDB_RULE_MAX_PRECEDENCENUM - 1 := by
    simp only [SP_MAPDB_RULE_MAX_PRECEDENCENUM] at hp ⊢
    omega
  obtain ⟨w, hws, hwm, hwt, hwmatch, hwp⟩ :=
    meshScanAux_some_of_mem skb smac dmac m.nodes r hr ht hm _ hle
  refine ⟨w, hws, hwm, hwt, hwmatch, hwp, ?_⟩
  unfold sp_mapdb_ruletable_search sp_mapdb_ruletable_search_output
  rw [if_neg (by simp [hc] : ¬((m.rule_count == 0) = true)), hws]

/-- An always-true MESH rule at precedence 10 with output 5. -/
def spec_c1_ruleA : sp_rule :=
  { id := 1, rule_precedence := 10, classifier_type := SP_RULE_TYPE_MESH,
    inner := { flags := SP_RULE_FLAG_MATCH_ALWAYS_TRUE, rule_output := 5 } }

/-- An always-true MESH rule at precedence 3 with output 6. -/
def spec_c1_ruleB : sp_rule :=
  { id := 2, rule_precedence := 3, classifier_type := SP_RULE_TYPE_MESH,
    inner := { flags := SP_RULE_FLAG_MATCH_ALWAYS_TRUE, rule_output := 6 } }

/-- A table holding the two competing rules of the claim scenario. -/
def spec_c1_state : sp_mapdb_rule_manager :=
  { nodes := [spec_c1_ruleA, spec_c1_ruleB], rule_count := 2 }

/-- An arbitrary packet for the C1 scenario (both rules are always-true). -/
def spec_c1_skb : sk_buff := {}

/-- Witness for claim C1: with matching rules at precedence 10 and 3 the
winner has precedence at least 3, and the search indeed returns rule A's
output 5, not rule B's 6. -/
theorem claim_C1_witness :
    (∃ w, meshScanAux spec_c1_skb 0 0 spec_c1_state.nodes
        (SP_MAPDB_RULE_MAX_PRECEDENCENUM - 1) = some w ∧
      w ∈ spec_c1_state.nodes ∧ w.classifier_type = SP_RULE_TYPE_MESH ∧
      sp_mapdb_rule_match spec_c1_skb w 0 0 = true ∧
      spec_c1_ruleB.rule_precedence ≤ w.rule_precedence ∧
      sp_mapdb_ruletable_search spec_c1_state spec_c1_skb 0 0 =
        sp_mapdb_set_output w.inner.rule_output spec_c1_skb) ∧
    sp_mapdb_ruletable_search spec_c1_state spec_c1_skb 0 0 = 5 :=
  ⟨claim_C1_precedence_order spec_c1_state spec_c1_skb 0 0 spec_c1_ruleB
      (by decide) rfl rfl (by decide) (by decide),
   by decide⟩

/-! ## Claim theorems: MSCS classification -/

/-- Soundness of the inner MSCS bucket loop: an accepted result comes from a
live MSCS rule of the bucket whose TID bitmap is valid and contains the
caller's priority bit, the echoed priority is the caller's, and the rule
field-matched at the params state the loop reached it with. -/
theorem mscsBucket_some (prio : Nat) (l : List sp_rule) (params : sp_rule_input_params)
    (res : Nat × Nat) (params' : sp_rule_input_params)
    (h : mscsBucket prio l params = (some res, params')) :
    ∃ r ∈ l, r.classifier_type = SP_RULE_TYPE_MSCS ∧ res = (prio, r.id) ∧
      r.inner.mscs_tid_bitmap ≠ SP_RULE_INVALID_MSCS_TID_BITMAP ∧
      ((1 <<< prio) &&& r.inner.mscs_tid_bitmap) ≠ 0 ∧
      ∃ q, (sp_mapdb_rule_match_sawf r q).1 = true := by
  induction l generalizing params with
  | nil => simp [mscsBucket] at h
  | cons a rest ih =>
      by_cases hta : a.classifier_type = SP_RULE_TYPE_MSCS
      · rw [show mscsBucket prio (a :: rest) params =
            (if (sp_mapdb_rule_match_sawf a params).1 &&
                a.inner.mscs_tid_bitmap != SP_RULE_INVALID_MSCS_TID_BITMAP &&
                ((1 <<< prio) &&& a.inner.mscs_tid_bitmap) != 0 then
              (some (prio, a.id), (sp_mapdb_rule_match_sawf a params).2)
            else mscsBucket prio rest (sp_mapdb_rule_match_sawf a params).2)
            from by simp [mscsBucket, hta]] at h
        by_cases hacc : ((sp_mapdb_rule_match_sawf a params).1 &&
            a.inner.mscs_tid_bitmap != SP_RULE_INVALID_MSCS_TID_BITMAP &&
            ((1 <<< prio) &&& a.inner.mscs_tid_bitmap) != 0) = true
        · rw [if_pos hacc] at h
          obtain ⟨h1, h3⟩ := Bool.and_eq_true _ _ ▸ hacc
          obtain ⟨hmatch, h2⟩ := Bool.and_eq_true _ _ ▸ h1
          refine ⟨a, List.mem_cons_self a rest, hta, ?_, by simpa using h2,
            by simpa using h3, params, hmatch⟩
          have := congrArg Prod.fst h
          simp at this
          exact this.symm
        · rw [if_neg hacc] at h
          obtain ⟨r, hrmem, hrest⟩ := ih _ h
          exact ⟨r, List.mem_cons_of_mem a hrmem, hrest⟩
      · rw [show mscsBucket prio (a :: rest) params = mscsBucket prio rest params
            from by simp [mscsBucket, hta]] at h
        obtain ⟨r, hrmem, hrest⟩ := ih _ h
        exact ⟨r, List.mem_cons_of_mem a hrmem, hrest⟩

/-- The inner MSCS bucket loop accepts nothing when no MSCS rule of the
bucket has the caller's priority bit in its TID bitmap. -/
theorem mscsBucket_none_of_bits (prio : Nat) (l : List sp_rule)
    (hbits : ∀ r ∈ l, r.classifier_type = SP_RULE_TYPE_MSCS →
      ((1 <<< prio) &&& r.inner.mscs_tid_bitmap) = 0) :
    ∀ params, (mscsBucket prio l params).1 = none := by
  induction l with
  | nil => intro params; simp [mscsBucket]
  | cons a rest ih =>
      intro params
      have ihrest := ih fun r hr => hbits r (List.mem_cons_of_mem a hr)
      by_cases hta : a.classifier_type = SP_RULE_TYPE_MSCS
      · have hbit := hbits a (List.mem_cons_self a rest) hta
        rw [show mscsBucket prio (a :: rest) params =
            (if (sp_mapdb_rule_match_sawf a params).1 &&
                a.inner.mscs_tid_bitmap != SP_RULE_INVALID_MSCS_TID_BITMAP &&
                ((1 <<< prio) &&& a.inner.mscs_tid_bitmap) != 0 then
              (some (prio, a.id), (sp_mapdb_rule_match_sawf a params).2)
            else mscsBucket prio rest (sp_mapdb_rule_match_sawf a params).2)
            from by simp [mscsBucket, hta]]
        rw [if_neg (by simp [hbit])]
        exact ihrest _
      · rw [show mscsBucket prio (a :: rest) params = mscsBucket prio rest params
            from by simp [mscsBucket, hta]]
        exact ihrest _

/-- Soundness of the descending MSCS scan: an accepted result comes from a
live MSCS rule with the caller's priority bit set in a valid TID bitmap. -/
theorem mscsScanAux_some (prio : Nat) (nodes : List sp_rule) :
    ∀ i params res, mscsScanAux prio nodes i params = some res →
      ∃ r ∈ nodes, r.classifier_type = SP_RULE_TYPE_MSCS ∧ res = (prio, r.id) ∧
        r.inner.mscs_tid_bitmap ≠ SP_RULE_INVALID_MSCS_TID_BITMAP ∧
        ((1 <<< prio) &&& r.inner.mscs_tid_bitmap) ≠ 0 ∧
        ∃ q, (sp_mapdb_rule_match_sawf r q).1 = true := by
  intro i
  induction i with
  | zero =>
      intro params res h
      simp only [mscsScanAux] at h
      cases hb : mscsBucket prio (bucket nodes 0) params with
      | mk fst snd =>
          rw [hb] at h
          cases fst with
          | none => simp at h
          | some r0 =>
              simp at h
              obtain ⟨r, hrmem, hrest⟩ := mscsBucket_some prio _ params r0 snd hb
              exact ⟨r, (mem_bucket.1 hrmem).1, by simpa [h] using hrest⟩
  | succ i ih =>
      intro params res h
      simp only [mscsScanAux] at h
      cases hb : mscsBucket prio (bucket nodes (i + 1)) params with
      | mk fst snd =>
          rw [hb] at h
          cases fst with
          | some r0 =>
              simp at h
              obtain ⟨r, hrmem, hrest⟩ := mscsBucket_some prio _ params r0 snd hb
              exact ⟨r, (mem_bucket.1 hrmem).1, by simpa [h] using hrest⟩
          | none =>
              simp at h
              exact ih snd res h

/-- The descending MSCS scan accepts nothing when no live MSCS rule has the
caller's priority bit in its TID bitmap. -/
theorem mscsScanAux_none_of_bits (prio : Nat) (nodes : List sp_rule)
    (hbits : ∀ r ∈ nodes, r.classifier_type = SP_RULE_TYPE_MSCS →
      ((1 <<< prio) &&& r.inner.mscs_tid_bitmap) = 0) :
    ∀ i params, mscsScanAux prio nodes i params = none := by
  have hbucket : ∀ j params, (mscsBucket prio (bucket nodes j) params).1 = none :=
    fun j => mscsBucket_none_of_bits prio (bucket nodes j)
      (fun r hr => hbits r (mem_bucket.1 hr).1)
  intro i
  induction i with
  | zero =>
      intro params
      simp only [mscsScanAux]
      exact hbucket 0 params
  | succ i ih =>
      intro params
      simp only [mscsScanAux]
      cases hb : mscsBucket prio (bucket nodes (i + 1)) params with
      | mk fst snd =>
          have := hbucket (i + 1) params
          rw [hb] at this
          simp at this
          rw [this]
          exact ih snd

/-- Claim C9: MSCS classification accepts a field-matching MSCS rule only
when the bit of the caller's current priority is set in the rule's valid TID
bitmap, in which case the caller's priority is echoed back unchanged with
the rule's id; when no live MSCS rule carries the caller's priority bit the
scan runs out and the invalid-priority and invalid-rule-id sentinels are
returned. -/
theorem claim_C9_mscs_bitmap (m : sp_mapdb_rule_manager) (prio : Nat)
    (params : sp_rule_input_params) :
    (∀ res, sp_mapdb_apply_mscs m prio params = res →
      res ≠ (SP_RULE_INVALID_PRIORITY, SP_RULE_INVALID_RULE_ID) →
      res.1 = prio ∧ ∃ r ∈ m.nodes, r.classifier_type = SP_RULE_TYPE_MSCS ∧
        res.2 = r.id ∧ r.inner.mscs_tid_bitmap ≠ SP_RULE_INVALID_MSCS_TID_BITMAP ∧
        ((1 <<< prio) &&& r.inner.mscs_tid_bitmap) ≠ 0 ∧
        ∃ q, (sp_mapdb_rule_match_sawf r q).1 = true) ∧
    ((∀ r ∈ m.nodes, r.classifier_type = SP_RULE_TYPE_MSCS →
        ((1 <<< prio) &&& r.inner.mscs_tid_bitmap) = 0) →
      sp_mapdb_apply_mscs m prio params =
        (SP_RULE_INVALID_PRIORITY, SP_RULE_INVALID_RULE_ID)) := by
  constructor
  · intro res hres hne
    unfold sp_mapdb_apply_mscs at hres
    by_cases hc : m.rule_count = 0
    · rw [if_pos (by simp [hc])] at hres
      exact absurd hres.symm hne
    · rw [if_neg (by simp [hc] : ¬((m.rule_count == 0) = true))] at hres
      cases hscan : mscsScanAux prio m.nodes (SP_MAPDB_RULE_MAX_PRECEDENCENUM - 1) params with
      | none =>
          rw [hscan] at hres
          exact absurd hres.symm hne
      | some r0 =>
          rw [hscan] at hres
          obtain ⟨r, hrmem, hrt, hreq, hbit1, hbit2, hq⟩ :=
            mscsScanAux_some prio m.nodes _ params r0 hscan
          have hr0 : res = (prio, r.id) := by rw [← hres, hreq]
          refine ⟨by rw [hr0], r, hrmem, hrt, by rw [hr0], hbit1, hbit2, hq⟩
  · intro hbits
    unfold sp_mapdb_apply_mscs
    by_cases hc : m.rule_count = 0
    · rw [if_pos (by simp [hc])]
    · rw [if_neg (by simp [hc] : ¬((m.rule_count == 0) = true)),
        mscsScanAux_none_of_bits prio m.nodes hbits _ params]

/-- An MSCS rule with TID bitmap 0b100 (only bit 2 set), flag-less predicate. -/
def spec_c9_rule : sp_rule :=
  { id := 42, rule_precedence := 254, classifier_type := SP_RULE_TYPE_MSCS,
    inner := { mscs_tid_bitmap := 4 } }

/-- A table holding the single MSCS rule of the claim scenario. -/
def spec_c9_state : sp_mapdb_rule_manager :=
  { nodes := [spec_c9_rule], rule_count := 1 }

/-- Caller params for the C9 scenario (the rule has no active field flags). -/
def spec_c9_params : sp_rule_input_params := {}

/-- Witness for claim C9: with bitmap 0b100, caller priority 5 yields the
invalid sentinels, while caller priority 2 is echoed back with rule id 42. -/
theorem claim_C9_witness :
    sp_mapdb_apply_mscs spec_c9_state 5 spec_c9_params =
      (SP_RULE_INVALID_PRIORITY, SP_RULE_INVALID_RULE_ID) ∧
    sp_mapdb_apply_mscs spec_c9_state 2 spec_c9_params = (2, 42) :=
  ⟨(claim_C9_mscs_bitmap spec_c9_state 5 spec_c9_params).2 (by decide),
   by decide⟩

/-- An if-then-else whose branches are both false is false, whatever the
condition; used to step over the unknown checks of the matcher chains. -/
theorem ite_false_false {c : Prop} [Decidable c] {x y : Bool}
    (hx : x = false) (hy : y = false) : (if c then x else y) = false := by
  split <;> assumption

/-! ## Claim theorems: matcher frame effects (claim C5) -/

/-- The SPI segment leaves the params untouched when the SPI flag is off. -/
theorem sawf_match_spi_snd (rule : sp_rule) (params : sp_rule_input_params)
    (h5 : rule.inner.flags_sawf &&& SP_RULE_FLAG_MATCH_SCS_SPI = 0) :
    (sawf_match_spi rule params).2 = params := by
  unfold sawf_match_spi
  simp only [h5, bne_self_eq_false, Bool.false_eq_true, Bool.false_and, if_false]

/-- The source-IPv4 segment leaves the params untouched when its mask flag
and the SPI flag are off. -/
theorem sawf_match_from_src_ipv4_snd (rule : sp_rule) (params : sp_rule_input_params)
    (h4 : rule.inner.flags_sawf &&& SP_RULE_FLAG_MATCH_SAWF_SRC_IPV4_MASK = 0)
    (h5 : rule.inner.flags_sawf &&& SP_RULE_FLAG_MATCH_SCS_SPI = 0) :
    (sawf_match_from_src_ipv4 rule params).2 = params := by
  unfold sawf_match_from_src_ipv4
  simp only [h4, bne_self_eq_false, Bool.false_eq_true, Bool.and_false, if_false]
  split_ifs <;> first | rfl | exact sawf_match_spi_snd rule params h5

/-- The destination-IPv6 segment leaves the params untouched when its mask
flag and the downstream mask flags are off. -/
theorem sawf_match_from_dst_ipv6_snd (rule : sp_rule) (params : sp_rule_input_params)
    (h3 : rule.inner.flags_sawf &&& SP_RULE_FLAG_MATCH_SAWF_DST_IPV6_MASK = 0)
    (h4 : rule.inner.flags_sawf &&& SP_RULE_FLAG_MATCH_SAWF_SRC_IPV4_MASK = 0)
    (h5 : rule.inner.flags_sawf &&& SP_RULE_FLAG_MATCH_SCS_SPI = 0) :
    (sawf_match_from_dst_ipv6 rule params).2 = params := by
  unfold sawf_match_from_dst_ipv6
  simp only [h3, bne_self_eq_false, Bool.false_eq_true, Bool.and_false, if_false]
  split_ifs <;> first | rfl | exact sawf_match_from_src_ipv4_snd rule params h4 h5

/-- The source-IPv6 segment leaves the params untouched when its mask flag
and the downstream mask flags are off. -/
theorem sawf_match_from_src_ipv6_snd (rule : sp_rule) (params : sp_rule_input_params)
    (h2 : rule.inner.flags_sawf &&& SP_RULE_FLAG_MATCH_SAWF_SRC_IPV6_MASK = 0)
    (h3 : rule.inner.flags_sawf &&& SP_RULE_FLAG_MATCH_SAWF_DST_IPV6_MASK = 0)
    (h4 : rule.inner.flags_sawf &&& SP_RULE_FLAG_MATCH_SAWF_SRC_IPV4_MASK = 0)
    (h5 : rule.inner.flags_sawf &&& SP_RULE_FLAG_MATCH_SCS_SPI = 0) :
    (sawf_match_from_src_ipv6 rule params).2 = params := by
  unfold sawf_match_from_src_ipv6
  simp only [h2, bne_self_eq_false, Bool.false_eq_true, Bool.and_false, if_false]
  split_ifs <;> first | rfl | exact sawf_match_from_dst_ipv6_snd rule params h3 h4 h5

/-- A SAWF rule requesting masked destination-IPv4 matching with mask 0. -/
def spec_c5_rule : sp_rule :=
  { id := 31, classifier_type := SP_RULE_TYPE_SAWF,
    inner := { flags_sawf := SP_RULE_FLAG_MATCH_SAWF_DST_IPV4 |||
                 SP_RULE_FLAG_MATCH_SAWF_DST_IPV4_MASK,
               dst_ipv4_addr := 0, dst_ipv4_addr_mask := 0 } }

/-- Caller params whose destination IPv4 address is clobbered by the masked
compare of the SAWF matcher. -/
def spec_c5_params : sp_rule_input_params :=
  { dst_ipv4_addr := 5 }

/-- Counterexample to claim C5: the SAWF matcher writes the masked value back
into the caller's params record, so the params after the call differ from the
params before it (the destination IPv4 field is overwritten with 0). -/
theorem claim_C5_counterexample :
    (sp_mapdb_rule_match_sawf spec_c5_rule spec_c5_params).2 ≠ spec_c5_params ∧
    (sp_mapdb_rule_match_sawf spec_c5_rule spec_c5_params).2.dst_ipv4_addr = 0 ∧
    spec_c5_params.dst_ipv4_addr = 5 := by
  refine ⟨?_, by decide, by decide⟩
  decide

/-- Claim C5 as amended: the SAWF-family matcher leaves the caller's params
record unchanged whenever none of the in-place masking flags (the IPv4/IPv6
mask companions and the SPI pattern flag) is active; only those flags cause
a write-back of a masked input field. -/
theorem claim_C5_no_mask_no_write (rule : sp_rule) (params : sp_rule_input_params)
    (h1 : rule.inner.flags_sawf &&& SP_RULE_FLAG_MATCH_SAWF_DST_IPV4_MASK = 0)
    (h2 : rule.inner.flags_sawf &&& SP_RULE_FLAG_MATCH_SAWF_SRC_IPV6_MASK = 0)
    (h3 : rule.inner.flags_sawf &&& SP_RULE_FLAG_MATCH_SAWF_DST_IPV6_MASK = 0)
    (h4 : rule.inner.flags_sawf &&& SP_RULE_FLAG_MATCH_SAWF_SRC_IPV4_MASK = 0)
    (h5 : rule.inner.flags_sawf &&& SP_RULE_FLAG_MATCH_SCS_SPI = 0) :
    (sp_mapdb_rule_match_sawf rule params).2 = params := by
  unfold sp_mapdb_rule_match_sawf
  simp only [h1, bne_self_eq_false, Bool.false_eq_true, Bool.and_false, if_false]
  split_ifs <;> first | rfl | exact sawf_match_from_src_ipv6_snd rule params h2 h3 h4 h5

/-- Witness for the amended claim C5: a rule with equality-only SAWF flags
returns the caller's params untouched. -/
theorem claim_C5_witness :
    (sp_mapdb_rule_match_sawf
      { id := 32, classifier_type := SP_RULE_TYPE_SAWF,
        inner := { flags_sawf := SP_RULE_FLAG_MATCH_SAWF_DST_PORT, dst_port := 80 } }
      spec_c5_params).2 = spec_c5_params :=
  claim_C5_no_mask_no_write _ spec_c5_params rfl rfl rfl rfl rfl

/-! ## Claim theorems: IPv4 group gating and port fields (claim C6) -/

/-- A MESH rule matching on source port 0 only. -/
def spec_c6_rule : sp_rule :=
  { id := 21, classifier_type := SP_RULE_TYPE_MESH,
    inner := { flags := SP_RULE_FLAG_MATCH_SRC_PORT, src_port := 0 } }

/-- An IPv4 ICMP packet (protocol 1, neither TCP nor UDP). -/
def spec_c6_skb : sk_buff :=
  { protocol := ETH_P_IP, ip_protocol := 1, src_port := 9999 }

/-- Counterexample to claim C6: a source-port rule matches an IPv4 packet
whose protocol is neither TCP nor UDP, because the port locals stay 0 and the
comparison 0 == 0 succeeds — the matcher does not report no-match. -/
theorem claim_C6_counterexample :
    sp_mapdb_rule_match spec_c6_skb spec_c6_rule 0 0 = true := by
  decide

/-- Splitting the IPv4 flag group: if the whole group is masked out of a flag
word, so are the two port flags individually. -/
theorem and_group_zero (f : Nat) (h : f &&& sp_ipv4_group_flags = 0) :
    f &&& SP_RULE_FLAG_MATCH_SRC_PORT = 0 ∧ f &&& SP_RULE_FLAG_MATCH_DST_PORT = 0 := by
  simp only [sp_ipv4_group_flags, Nat.and_or_distrib_left, nat_or_eq_zero] at h
  exact ⟨h.1.1.1.2, h.1.1.2⟩

/-- Claim C6 as amended: with the always-true flag clear, (a) a non-IPv4
frame fails any rule with an active IPv4-group flag, and (b) on a frame
whose IP protocol is neither TCP nor UDP the port checks compare against
port value 0 — the match fails whenever the rule's active source-port
(resp. destination-port) test is not satisfied by port 0, in particular
whenever the stored port is nonzero with a clear sense bit. -/
theorem claim_C6_non_ip_and_ports (rule : sp_rule) (skb : sk_buff) (smac dmac : Nat)
    (hat : rule.inner.flags &&& SP_RULE_FLAG_MATCH_ALWAYS_TRUE = 0) :
    (rule.inner.flags &&& sp_ipv4_group_flags ≠ 0 → skb.protocol ≠ ETH_P_IP →
      sp_mapdb_rule_match skb rule smac dmac = false) ∧
    (skb.ip_protocol ≠ IPPROTO_TCP → skb.ip_protocol ≠ IPPROTO_UDP →
      rule.inner.flags &&& SP_RULE_FLAG_MATCH_SRC_PORT ≠ 0 →
      (((0 : Nat) == rule.inner.src_port) ^^
        ((rule.inner.flags &&& SP_RULE_FLAG_MATCH_SRC_PORT_SENSE) != 0)) = false →
      sp_mapdb_rule_match skb rule smac dmac = false) ∧
    (skb.ip_protocol ≠ IPPROTO_TCP → skb.ip_protocol ≠ IPPROTO_UDP →
      rule.inner.flags &&& SP_RULE_FLAG_MATCH_DST_PORT ≠ 0 →
      (((0 : Nat) == rule.inner.dst_port) ^^
        ((rule.inner.flags &&& SP_RULE_FLAG_MATCH_DST_PORT_SENSE) != 0)) = false →
      sp_mapdb_rule_match skb rule smac dmac = false) := by
  have hat' : ¬(((rule.inner.flags &&& SP_RULE_FLAG_MATCH_ALWAYS_TRUE) != 0) = true) := by
    simp [hat]
  refine ⟨?_, ?_, ?_⟩
  · intro hg hp
    simp only [sp_mapdb_rule_match]
    rw [if_neg hat']
    apply ite_false_false rfl
    apply ite_false_false rfl
    apply ite_false_false rfl
    apply ite_false_false rfl
    apply ite_false_false rfl
    rw [if_neg (by simpa using hg : ¬(((rule.inner.flags &&& sp_ipv4_group_flags) == 0) = true)),
        if_pos (by simpa using hp : ((skb.protocol != ETH_P_IP) = true))]
  · intro htcp hudp hflag hxor
    have hg : rule.inner.flags &&& sp_ipv4_group_flags ≠ 0 := fun h0 =>
      hflag (and_group_zero _ h0).1
    simp only [sp_mapdb_rule_match]
    rw [if_neg hat']
    apply ite_false_false rfl
    apply ite_false_false rfl
    apply ite_false_false rfl
    apply ite_false_false rfl
    apply ite_false_false rfl
    rw [if_neg (by simpa using hg : ¬(((rule.inner.flags &&& sp_ipv4_group_flags) == 0) = true))]
    apply ite_false_false rfl
    apply ite_false_false rfl
    apply ite_false_false rfl
    apply ite_false_false rfl
    apply ite_false_false rfl
    simp [htcp, hudp, hxor, hflag]
  · intro htcp hudp hflag hxor
    have hg : rule.inner.flags &&& sp_ipv4_group_flags ≠ 0 := fun h0 =>
      hflag (and_group_zero _ h0).2
    simp only [sp_mapdb_rule_match]
    rw [if_neg hat']
    apply ite_false_false rfl
    apply ite_false_false rfl
    apply ite_false_false rfl
    apply ite_false_false rfl
    apply ite_false_false rfl
    rw [if_neg (by simpa using hg : ¬(((rule.inner.flags &&& sp_ipv4_group_flags) == 0) = true))]
    apply ite_false_false rfl
    apply ite_false_false rfl
    apply ite_false_false rfl
    apply ite_false_false rfl
    apply ite_false_false rfl
    apply ite_false_false rfl
    simp [htcp, hudp, hxor, hflag]

/-- An IPv4 GRE packet (protocol 47) for the amended C6 witness. -/
def spec_c6_skb2 : sk_buff :=
  { protocol := ETH_P_IP, ip_protocol := 47, src_port := 443 }

/-- A MESH rule matching on a nonzero source port with a clear sense bit. -/
def spec_c6_rule2 : sp_rule :=
  { id := 22, classifier_type := SP_RULE_TYPE_MESH,
    inner := { flags := SP_RULE_FLAG_MATCH_SRC_PORT, src_port := 443 } }

/-- Witness for the amended claim C6: the non-TCP/UDP packet fails the
nonzero source-port rule (even though the packet's own port field holds the
rule's value), and a non-IP frame fails a rule with an IPv4-group flag. -/
theorem claim_C6_witness :
    sp_mapdb_rule_match spec_c6_skb2 spec_c6_rule2 0 0 = false ∧
    sp_mapdb_rule_match { protocol := 0x0806 } spec_c6_rule2 0 0 = false :=
  ⟨((claim_C6_non_ip_and_ports spec_c6_rule2 spec_c6_skb2 0 0 rfl).2.1)
      (by decide) (by decide) (by decide) (by decide),
   ((claim_C6_non_ip_and_ports spec_c6_rule2 { protocol := 0x0806 } 0 0 rfl).1)
      (by decide) (by decide)⟩

/-- Witness for claim C2 at a concrete operation sequence: add two rules,
modify one, delete one, and flush. -/
theorem claim_C2_witness :
    (sp_mapdb_run [sp_mapdb_op.update spec_c8_rule,
        sp_mapdb_op.update spec_c10_rule,
        sp_mapdb_op.update { spec_c10_rule with rule_precedence := 9 },
        sp_mapdb_op.update { spec_c8_rule with cmd := SP_MAPDB_ADD_REMOVE_FILTER_DELETE },
        sp_mapdb_op.flush]).rule_count =
      (((sp_mapdb_run [sp_mapdb_op.update spec_c8_rule,
        sp_mapdb_op.update spec_c10_rule,
        sp_mapdb_op.update { spec_c10_rule with rule_precedence := 9 },
        sp_mapdb_op.update { spec_c8_rule with cmd := SP_MAPDB_ADD_REMOVE_FILTER_DELETE },
        sp_mapdb_op.flush]).nodes.map ruleKey).dedup).length ∧
    ((sp_mapdb_run [sp_mapdb_op.update spec_c8_rule,
        sp_mapdb_op.update spec_c10_rule,
        sp_mapdb_op.update { spec_c10_rule with rule_precedence := 9 },
        sp_mapdb_op.update { spec_c8_rule with cmd := SP_MAPDB_ADD_REMOVE_FILTER_DELETE },
        sp_mapdb_op.flush]).nodes.map ruleKey).Nodup ∧
    (sp_mapdb_run [sp_mapdb_op.update spec_c8_rule,
        sp_mapdb_op.update spec_c10_rule,
        sp_mapdb_op.update { spec_c10_rule with rule_precedence := 9 },
        sp_mapdb_op.update { spec_c8_rule with cmd := SP_MAPDB_ADD_REMOVE_FILTER_DELETE },
        sp_mapdb_op.flush]).rule_count ≤ SP_MAPDB_RULE_MAX :=
  claim_C2_count_invariant [sp_mapdb_op.update spec_c8_rule,
    sp_mapdb_op.update spec_c10_rule,
    sp_mapdb_op.update { spec_c10_rule with rule_precedence := 9 },
    sp_mapdb_op.update { spec_c8_rule with cmd := SP_MAPDB_ADD_REMOVE_FILTER_DELETE },
    sp_mapdb_op.flush]
